import Mathlib

/-!
# Shallow embedding of the jdl-symphony-core domain layer

This file embeds the domain entities (`UserProfile`, `Workspace`, `Repo`,
`Vault`), their validation rules, and the domain services
(`UserProfileService`, `WorkspaceService`, `RepoService`, `VaultService`)
of the Symphony CRUD backend, and proves properties of the embedded code.

Modelling conventions:
- Python `str` is embedded as `List Char` (`Str`); `UUID` as `Nat` (ids are
  opaque, only equality is used; note a Python `UUID` object is always
  truthy); timestamps as `Nat` (only assignment and equality are used).
- Python dicts with opaque (`Any`) values are association lists
  `List (Str × Nat)`; `dict.update` is embedded as `dictUpdate` below.
- The persistent store reached through the unit of work is a `State` record
  of four entity lists; repository `get/save/delete/exists` and the
  aggregate-specific finders are functions on `State`.  `save` has upsert
  semantics (replace by id if present, append otherwise).
- A service method is a function `State → args → Except DomainError (α × State)`;
  a raised domain exception is `Except.error e`.  Returning `.error` models
  "the unit of work rolls back and the exception propagates": no new state
  is produced, so an erroring operation performs no write by construction.
- Sources of nondeterminism in the Python code (`uuid4()` for fresh ids,
  `datetime.now(UTC)` for timestamps) are passed as explicit parameters
  (`newId`, `now`).
-/

namespace Symphony

/-- Python `str` embedded as a list of characters. -/
abbrev Str := List Char

/-- Opaque UUID identity: only equality is ever used on ids. -/
abbrev UUID := Nat

/-- Opaque UTC timestamp: only assignment and comparison for equality are used. -/
abbrev Timestamp := Nat

/-- Python dict with string keys and opaque (`Any`) values. -/
abbrev Dict := List (Str × Nat)

/-- Characters Python's `str.strip()` / `str.isspace()` treats as whitespace
(the ASCII ones; the embedding restricts itself to ASCII text). -/
def pyIsSpace (c : Char) : Bool :=
  c == ' ' || c == '\t' || c == '\n' || c == '\r' || c == '\x0b' || c == '\x0c'

/-- `not s or not s.strip()`: the string is empty or consists only of
whitespace. -/
def pyBlank (s : Str) : Bool :=
  s.all pyIsSpace

/-- Python `str.strip()`: remove leading and trailing whitespace. -/
def pyStrip (s : Str) : Str :=
  ((s.dropWhile pyIsSpace).reverse.dropWhile pyIsSpace).reverse

/-- Python `str.split(sep)` for a single-character separator: `"".split(sep)`
is `[""]`, and `n` separators yield `n+1` (possibly empty) pieces. -/
def pySplit (sep : Char) : Str → List Str
  | [] => [[]]
  | c :: rest =>
    let r := pySplit sep rest
    if c = sep then [] :: r
    else
      match r with
      | [] => [[c]]
      | piece :: pieces => (c :: piece) :: pieces

/-- Python `dict.update(upd)` on association lists: keys present in `d` keep
their position and take the value from `upd` when overridden; keys only in
`upd` are appended in order. -/
def dictUpdate (d upd : Dict) : Dict :=
  (d.map fun kv =>
    match upd.find? (fun kv2 => kv2.1 == kv.1) with
    | some kv2 => kv2
    | none => kv) ++
  upd.filter fun kv2 => !(d.any fun kv => kv.1 == kv2.1)

/-- Python truthiness of an optional string (`None` and `""` are falsy). -/
def pyTruthy : Option Str → Bool
  | none => false
  | some s => !s.isEmpty

/-! ## Domain exceptions (`symphony/domain/exceptions.py`) -/

/-- The domain error taxonomy: validation errors (the `ValueError`s raised by
entity `__post_init__`/mutation methods, which name the offending field),
per-aggregate not-found errors, uniqueness conflicts, limit violations and
the ownership violation. -/
inductive DomainError where
  | invalidUsername (username : Str)
  | invalidEmail (email : Str)
  | invalidWorkspaceName (name : Str)
  | invalidWorkspaceType (ty : Str)
  | invalidRepoName (name : Str)
  | invalidRepoPath (path : Str)
  | invalidRemoteUrl (url : Option Str)
  | invalidVaultName (name : Str)
  | invalidVaultPath (path : Str)
  | userProfileNotFound (id : UUID)
  | workspaceNotFound (id : UUID)
  | repoNotFound (id : UUID)
  | vaultNotFound (id : UUID)
  | usernameAlreadyExists (username : Str)
  | emailAlreadyExists (email : Str)
  | duplicateRepoName (name : Str) (workspaceId : UUID)
  | duplicateVaultName (name : Str) (workspaceId : UUID)
  | workspaceLimitExceeded
  | repoLimitExceeded
  | vaultLimitExceeded
  | workspaceNotOwnedByUser (workspaceId : UUID) (userId : UUID)
  deriving Repr, DecidableEq

/-! ## UserProfile entity (`symphony/domain/models/user_profile.py`) -/

structure UserProfile where
  id : UUID
  username : Str
  email : Str
  preferences : Dict
  created_at : Timestamp
  updated_at : Timestamp
  deriving Repr, DecidableEq

namespace UserProfile

/-- `UserProfile.validate_username`: at least 3 characters, only alphanumerics
and underscores, starting with a letter. -/
def validate_username (self : UserProfile) : Bool :=
  match self.username with
  | [] => false
  | c :: rest =>
    if (c :: rest).length < 3 then false
    else if !c.isAlpha then false
    else (c :: rest).all fun ch => ch.isAlphanum || ch == '_'

/-- `UserProfile.validate_email`: non-empty, contains `@`, splits on `@` into
exactly two non-empty parts, and the domain part contains a dot. -/
def validate_email (self : UserProfile) : Bool :=
  if self.email.isEmpty || !self.email.contains '@' then false
  else
    match pySplit '@' self.email with
    | [localPart, domain] =>
      if localPart.isEmpty || domain.isEmpty then false
      else domain.contains '.'
    | _ => false

/-- `UserProfile.update_preferences`: merges (`dict.update`) the supplied map
into the stored preferences and bumps `updated_at`. -/
def update_preferences (self : UserProfile) (new_preferences : Dict)
    (now : Timestamp) : UserProfile :=
  { self with preferences := dictUpdate self.preferences new_preferences,
              updated_at := now }

/-- `UserProfile.update_email`: assigns the new email, validates it, restores
the old value and raises on failure, bumps `updated_at` on success.  Returns
the entity as left after the call together with the raised error, if any. -/
def update_email (self : UserProfile) (new_email : Str) (now : Timestamp) :
    UserProfile × Option DomainError :=
  let old_email := self.email
  let self := { self with email := new_email }
  if !self.validate_email then
    ({ self with email := old_email }, some (.invalidEmail new_email))
  else
    ({ self with updated_at := now }, none)

/-- Modelled from the spec: the `UserProfile.update_timestamp` method is
called by `UserProfileService.update_user_profile` but is absent from the
model file under `src/`; the spec's lifecycle section says mutations "bump
`updated_at`". -/
def update_timestamp (self : UserProfile) (now : Timestamp) : UserProfile :=
  { self with updated_at := now }

end UserProfile

/-- `UserProfile.__post_init__`: construction validates username then email
and never yields a half-valid object. -/
def mkUserProfile (id : UUID) (username email : Str) (preferences : Dict)
    (now : Timestamp) : Except DomainError UserProfile :=
  let up : UserProfile :=
    { id := id, username := username, email := email,
      preferences := preferences, created_at := now, updated_at := now }
  if !up.validate_username then .error (.invalidUsername username)
  else if !up.validate_email then .error (.invalidEmail email)
  else .ok up

/-! ## Workspace entity (`symphony/domain/models/workspace.py`) -/

structure Workspace where
  id : UUID
  name : Str
  description : Option Str
  user_profile_id : UUID
  workspace_type : Str
  settings : Dict
  shared_resources : List (Str × List UUID)
  created_at : Timestamp
  updated_at : Timestamp
  deriving Repr, DecidableEq

namespace Workspace

/-- `Workspace.validate_name`: non-empty, not only whitespace, at most 255
characters. -/
def validate_name (self : Workspace) : Bool :=
  if pyBlank self.name then false
  else if self.name.length > 255 then false
  else true

/-- `Workspace.validate_workspace_type`: one of the four allowed values. -/
def validate_workspace_type (self : Workspace) : Bool :=
  self.workspace_type == "general".toList ||
  self.workspace_type == "client".toList ||
  self.workspace_type == "personal".toList ||
  self.workspace_type == "research".toList

/-- `Workspace.rename`: assigns the new name, validates, restores the old
value and raises on failure, bumps `updated_at` on success. -/
def rename (self : Workspace) (new_name : Str) (now : Timestamp) :
    Workspace × Option DomainError :=
  let old_name := self.name
  let self := { self with name := new_name }
  if !self.validate_name then
    ({ self with name := old_name }, some (.invalidWorkspaceName new_name))
  else
    ({ self with updated_at := now }, none)

/-- Modelled from the spec: `Workspace.update_timestamp` is called by
`WorkspaceService.update_workspace` but absent from the model file under
`src/`; per the spec, mutations "bump `updated_at`". -/
def update_timestamp (self : Workspace) (now : Timestamp) : Workspace :=
  { self with updated_at := now }

end Workspace

/-- `Workspace.__post_init__`: validates name then workspace type. -/
def mkWorkspace (id : UUID) (name : Str) (description : Option Str)
    (user_profile_id : UUID) (workspace_type : Str) (settings : Dict)
    (now : Timestamp) : Except DomainError Workspace :=
  let w : Workspace :=
    { id := id, name := name, description := description,
      user_profile_id := user_profile_id, workspace_type := workspace_type,
      settings := settings, shared_resources := [],
      created_at := now, updated_at := now }
  if !w.validate_name then .error (.invalidWorkspaceName name)
  else if !w.validate_workspace_type then .error (.invalidWorkspaceType workspace_type)
  else .ok w

/-! ## Repo entity (`symphony/domain/models/repo.py`)

The dataclass in `src/` carries `id`, `name`, `path`, `workspace_id`,
`remote_url`, `created_at`, `updated_at`.  The fields `metadata` and
`last_synced` and the methods `update_timestamp`/`mark_synced` are used
throughout the service layer, the DTOs and the ORM model but are absent from
the model file under `src/`; they are modelled from the spec (see the doc
comments below). -/

structure Repo where
  id : UUID
  name : Str
  path : Str
  workspace_id : UUID
  remote_url : Option Str
  /-- Modelled from the spec: `metadata (arbitrary map)`; the field is set by
  `RepoService` and stored by the ORM model but missing from the dataclass
  under `src/`. -/
  metadata : Dict
  /-- Modelled from the spec: `last_synced (nullable timestamp touched by
  sync)`; missing from the dataclass under `src/`. -/
  last_synced : Option Timestamp
  created_at : Timestamp
  updated_at : Timestamp
  deriving Repr, DecidableEq

namespace Repo

/-- `Repo.validate_name`: non-blank, at most 255 characters, no path
separators, none of the special characters `<>:"|?*` and NUL. -/
def validate_name (self : Repo) : Bool :=
  if pyBlank self.name then false
  else if self.name.length > 255 then false
  else if self.name.contains '/' || self.name.contains '\\' then false
  else
    !(self.name.contains '<' || self.name.contains '>' || self.name.contains ':' ||
      self.name.contains '"' || self.name.contains '|' || self.name.contains '?' ||
      self.name.contains '*' || self.name.contains '\x00')

/-- `Repo.validate_path`: non-blank.  (The Python body additionally constructs
`pathlib.Path(self.path)` inside a `try`, but pure `Path` construction does
not raise for a non-empty string, so the check reduces to non-blankness.) -/
def validate_path (self : Repo) : Bool :=
  !pyBlank self.path

/-- `Repo.validate_remote_url`: `None`/empty is fine; otherwise, after
stripping, the URL must start with one of the git scheme prefixes or be an
SCP-style `user@host:path` (contains `:` and does not start with `/`). -/
def validate_remote_url (self : Repo) : Bool :=
  match self.remote_url with
  | none => true
  | some u =>
    if u.isEmpty then true
    else
      let url := pyStrip u
      if ("http://".toList.isPrefixOf url) || ("https://".toList.isPrefixOf url) ||
         ("git://".toList.isPrefixOf url) || ("ssh://".toList.isPrefixOf url) ||
         ("git@".toList.isPrefixOf url) then true
      else url.contains ':' && !("/".toList.isPrefixOf url)

/-- `Repo.update_remote_url`: assigns the new URL, validates it when truthy,
restores the old value and raises on failure, bumps `updated_at` on
success. -/
def update_remote_url (self : Repo) (remote_url : Option Str) (now : Timestamp) :
    Repo × Option DomainError :=
  let old_url := self.remote_url
  let self := { self with remote_url := remote_url }
  if pyTruthy self.remote_url && !self.validate_remote_url then
    ({ self with remote_url := old_url }, some (.invalidRemoteUrl remote_url))
  else
    ({ self with updated_at := now }, none)

/-- `Repo.update_path`: assigns the new path, validates, restores the old
value and raises on failure, bumps `updated_at` on success. -/
def update_path (self : Repo) (new_path : Str) (now : Timestamp) :
    Repo × Option DomainError :=
  let old_path := self.path
  let self := { self with path := new_path }
  if !self.validate_path then
    ({ self with path := old_path }, some (.invalidRepoPath new_path))
  else
    ({ self with updated_at := now }, none)

/-- `Repo.rename`: assigns the new name, validates, restores the old value
and raises on failure, bumps `updated_at` on success. -/
def rename (self : Repo) (new_name : Str) (now : Timestamp) :
    Repo × Option DomainError :=
  let old_name := self.name
  let self := { self with name := new_name }
  if !self.validate_name then
    ({ self with name := old_name }, some (.invalidRepoName new_name))
  else
    ({ self with updated_at := now }, none)

/-- Modelled from the spec: `Repo.update_timestamp` is called by
`RepoService.update_repo` but absent from the model file under `src/`; per
the spec, mutations "bump `updated_at`". -/
def update_timestamp (self : Repo) (now : Timestamp) : Repo :=
  { self with updated_at := now }

/-- Modelled from the spec: `Repo.mark_synced` is called by
`RepoService.sync_with_remote` but absent from the model file under `src/`;
the spec states "`sync_with_remote` only updates `last_synced` — no actual
remote interaction" and "sync is a timestamp touch". -/
def mark_synced (self : Repo) (now : Timestamp) : Repo :=
  { self with last_synced := some now }

end Repo

/-- `Repo.__post_init__`: validates name, then path, then (when truthy) the
remote URL. -/
def mkRepo (id : UUID) (name path : Str) (workspace_id : UUID)
    (remote_url : Option Str) (metadata : Dict) (now : Timestamp) :
    Except DomainError Repo :=
  let r : Repo :=
    { id := id, name := name, path := path, workspace_id := workspace_id,
      remote_url := remote_url, metadata := metadata, last_synced := none,
      created_at := now, updated_at := now }
  if !r.validate_name then .error (.invalidRepoName name)
  else if !r.validate_path then .error (.invalidRepoPath path)
  else if pyTruthy r.remote_url && !r.validate_remote_url then
    .error (.invalidRemoteUrl remote_url)
  else .ok r

/-! ## Vault entity (`symphony/domain/models/vault.py`)

The dataclass in `src/` carries `id`, `name`, `path`, `workspace_id`,
`created_at`, `updated_at`.  The fields `metadata` and `is_locked` and the
methods `lock`/`unlock`/`update_timestamp` are used by `VaultService`, the
DTOs and the ORM model but are absent from the model file under `src/`; they
are modelled from the spec. -/

structure Vault where
  id : UUID
  name : Str
  path : Str
  workspace_id : UUID
  /-- Modelled from the spec: `metadata (arbitrary map)`; set by
  `VaultService` and stored by the ORM model but missing from the dataclass
  under `src/`. -/
  metadata : Dict
  /-- Modelled from the spec: `is_locked (boolean, default false)`; missing
  from the dataclass under `src/`. -/
  is_locked : Bool
  created_at : Timestamp
  updated_at : Timestamp
  deriving Repr, DecidableEq

namespace Vault

/-- `Vault.validate_name`: same rules as `Repo.validate_name`. -/
def validate_name (self : Vault) : Bool :=
  if pyBlank self.name then false
  else if self.name.length > 255 then false
  else if self.name.contains '/' || self.name.contains '\\' then false
  else if self.name.contains '<' || self.name.contains '>' || self.name.contains ':' ||
          self.name.contains '"' || self.name.contains '|' || self.name.contains '?' ||
          self.name.contains '*' || self.name.contains '\x00' then false
  else true

/-- `Vault.validate_path`: non-blank (as for `Repo.validate_path`). -/
def validate_path (self : Vault) : Bool :=
  !pyBlank self.path

/-- `Vault.update_path`: assigns the new path, validates, restores the old
value and raises on failure, bumps `updated_at` on success. -/
def update_path (self : Vault) (new_path : Str) (now : Timestamp) :
    Vault × Option DomainError :=
  let old_path := self.path
  let self := { self with path := new_path }
  if !self.validate_path then
    ({ self with path := old_path }, some (.invalidVaultPath new_path))
  else
    ({ self with updated_at := now }, none)

/-- `Vault.rename`: assigns the new name, validates, restores the old value
and raises on failure, bumps `updated_at` on success. -/
def rename (self : Vault) (new_name : Str) (now : Timestamp) :
    Vault × Option DomainError :=
  let old_name := self.name
  let self := { self with name := new_name }
  if !self.validate_name then
    ({ self with name := old_name }, some (.invalidVaultName new_name))
  else
    ({ self with updated_at := now }, none)

/-- Modelled from the spec: `Vault.lock` is called by
`VaultService.lock_vault` but absent from the model file under `src/`; the
spec describes `lock`/`unlock` as "idempotent boolean flips" of `is_locked`
that, like other mutation methods, bump `updated_at`. -/
def lock (self : Vault) (now : Timestamp) : Vault :=
  { self with is_locked := true, updated_at := now }

/-- Modelled from the spec: `Vault.unlock` is called by
`VaultService.unlock_vault` but absent from the model file under `src/`;
the idempotent counterpart of `lock`. -/
def unlock (self : Vault) (now : Timestamp) : Vault :=
  { self with is_locked := false, updated_at := now }

/-- Modelled from the spec: `Vault.update_timestamp` is called by
`VaultService.update_vault` but absent from the model file under `src/`. -/
def update_timestamp (self : Vault) (now : Timestamp) : Vault :=
  { self with updated_at := now }

end Vault

/-- `Vault.__post_init__`: validates name then path; `is_locked` defaults to
false. -/
def mkVault (id : UUID) (name path : Str) (workspace_id : UUID)
    (metadata : Dict) (now : Timestamp) : Except DomainError Vault :=
  let v : Vault :=
    { id := id, name := name, path := path, workspace_id := workspace_id,
      metadata := metadata, is_locked := false,
      created_at := now, updated_at := now }
  if !v.validate_name then .error (.invalidVaultName name)
  else if !v.validate_path then .error (.invalidVaultPath path)
  else .ok v

/-! ## Persistent state and the repository ports

The four repositories bound to one unit of work are embedded as one `State`
record of entity lists; `get`/`exists`/`save`/`delete` and the
aggregate-specific finders from `symphony/domain/repositories/*` (with the
SQLAlchemy semantics of `symphony/infrastructure/database/repositories/*`)
become functions on `State`. -/

/-- `save` upsert semantics: replace the entity with the same id if present,
append otherwise. -/
def upsert (idOf : α → UUID) : List α → α → List α
  | [], a => [a]
  | x :: xs, a => if idOf x = idOf a then a :: xs else x :: upsert idOf xs a

structure State where
  user_profiles : List UserProfile
  workspaces : List Workspace
  repos : List Repo
  vaults : List Vault
  deriving Repr, DecidableEq

namespace State

/-- `UserProfileRepository.get`. -/
def findUserProfile (s : State) (id : UUID) : Option UserProfile :=
  s.user_profiles.find? fun u => u.id == id

/-- `UserProfileRepository.exists`. -/
def userProfileExists (s : State) (id : UUID) : Bool :=
  (s.findUserProfile id).isSome

/-- `UserProfileRepository.save`. -/
def saveUserProfile (s : State) (up : UserProfile) : State :=
  { s with user_profiles := upsert UserProfile.id s.user_profiles up }

/-- `UserProfileRepository.username_exists` (optionally excluding an id). -/
def usernameExists (s : State) (username : Str) (exclude_id : Option UUID) : Bool :=
  s.user_profiles.any fun u =>
    u.username == username &&
    (match exclude_id with
     | some e => u.id != e
     | none => true)

/-- `UserProfileRepository.email_exists` (optionally excluding an id). -/
def emailExists (s : State) (email : Str) (exclude_id : Option UUID) : Bool :=
  s.user_profiles.any fun u =>
    u.email == email &&
    (match exclude_id with
     | some e => u.id != e
     | none => true)

/-- `UserProfileRepository.count_workspaces`: number of workspaces whose
`user_profile_id` is the given user. -/
def countWorkspaces (s : State) (user_id : UUID) : Nat :=
  (s.workspaces.filter fun w => w.user_profile_id == user_id).length

/-- `WorkspaceRepository.get`. -/
def findWorkspace (s : State) (id : UUID) : Option Workspace :=
  s.workspaces.find? fun w => w.id == id

/-- `WorkspaceRepository.exists`. -/
def workspaceExists (s : State) (id : UUID) : Bool :=
  (s.findWorkspace id).isSome

/-- `WorkspaceRepository.save`. -/
def saveWorkspace (s : State) (w : Workspace) : State :=
  { s with workspaces := upsert Workspace.id s.workspaces w }

/-- `WorkspaceRepository.delete`, with the storage-level `ondelete="CASCADE"`
of the schema: owned repos and vaults disappear with the workspace. -/
def deleteWorkspace (s : State) (id : UUID) : State :=
  { s with workspaces := s.workspaces.filter fun w => w.id != id,
           repos := s.repos.filter fun r => r.workspace_id != id,
           vaults := s.vaults.filter fun v => v.workspace_id != id }

/-- The `"repos"` entry of `WorkspaceRepository.count_resources`. -/
def countRepos (s : State) (workspace_id : UUID) : Nat :=
  (s.repos.filter fun r => r.workspace_id == workspace_id).length

/-- The `"vaults"` entry of `WorkspaceRepository.count_resources`. -/
def countVaults (s : State) (workspace_id : UUID) : Nat :=
  (s.vaults.filter fun v => v.workspace_id == workspace_id).length

/-- `RepoRepository.get`. -/
def findRepo (s : State) (id : UUID) : Option Repo :=
  s.repos.find? fun r => r.id == id

/-- `RepoRepository.save`. -/
def saveRepo (s : State) (r : Repo) : State :=
  { s with repos := upsert Repo.id s.repos r }

/-- `RepoRepository.delete`. -/
def deleteRepo (s : State) (id : UUID) : State :=
  { s with repos := s.repos.filter fun r => r.id != id }

/-- `RepoRepository.get_by_workspace`. -/
def reposByWorkspace (s : State) (workspace_id : UUID) : List Repo :=
  s.repos.filter fun r => r.workspace_id == workspace_id

/-- `RepoRepository.name_exists_in_workspace` (optionally excluding an id). -/
def repoNameExistsInWorkspace (s : State) (workspace_id : UUID) (name : Str)
    (exclude_id : Option UUID) : Bool :=
  s.repos.any fun r =>
    r.workspace_id == workspace_id && r.name == name &&
    (match exclude_id with
     | some e => r.id != e
     | none => true)

/-- `VaultRepository.get`. -/
def findVault (s : State) (id : UUID) : Option Vault :=
  s.vaults.find? fun v => v.id == id

/-- `VaultRepository.save`. -/
def saveVault (s : State) (v : Vault) : State :=
  { s with vaults := upsert Vault.id s.vaults v }

/-- `VaultRepository.delete`. -/
def deleteVault (s : State) (id : UUID) : State :=
  { s with vaults := s.vaults.filter fun v => v.id != id }

/-- `VaultRepository.get_by_workspace`. -/
def vaultsByWorkspace (s : State) (workspace_id : UUID) : List Vault :=
  s.vaults.filter fun v => v.workspace_id == workspace_id

/-- `VaultRepository.name_exists_in_workspace` (optionally excluding an id). -/
def vaultNameExistsInWorkspace (s : State) (workspace_id : UUID) (name : Str)
    (exclude_id : Option UUID) : Bool :=
  s.vaults.any fun v =>
    v.workspace_id == workspace_id && v.name == name &&
    (match exclude_id with
     | some e => v.id != e
     | none => true)

end State

/-! ## Domain services (`symphony/domain/services/*.py`)

Each method opens its own unit-of-work scope; a raised exception rolls the
transaction back, so an erroring call leaves the store untouched (modelled by
`Except.error` carrying no state). -/

namespace UserProfileService

/-- `UserProfileService.create_user_profile`: construct (validates), check
username uniqueness, then email uniqueness, then save and commit. -/
def create_user_profile (s : State) (username email : Str)
    (preferences : Option Dict) (newId : UUID) (now : Timestamp) :
    Except DomainError (UserProfile × State) := do
  let user_profile ← mkUserProfile newId username email (preferences.getD []) now
  if s.usernameExists username none then
    throw (.usernameAlreadyExists username)
  else if s.emailExists email none then
    throw (.emailAlreadyExists email)
  else
    return (user_profile, s.saveUserProfile user_profile)

/-- `UserProfileService.update_user_profile`: load, then for each truthy,
changed field re-check uniqueness (excluding the own id) and assign; a
provided preferences map replaces the stored one wholesale; bump
`updated_at`; save and commit. -/
def update_user_profile (s : State) (user_id : UUID)
    (username email : Option Str) (preferences : Option Dict)
    (now : Timestamp) : Except DomainError (UserProfile × State) := do
  let some up := s.findUserProfile user_id
    | throw (.userProfileNotFound user_id)
  let up ← (do
    match username with
    | some u =>
      if !u.isEmpty && u != up.username then
        if s.usernameExists u (some user_id) then
          throw (.usernameAlreadyExists u)
        else
          pure { up with username := u }
      else
        pure up
    | none => pure up : Except DomainError UserProfile)
  let up ← (do
    match email with
    | some e =>
      if !e.isEmpty && e != up.email then
        if s.emailExists e (some user_id) then
          throw (.emailAlreadyExists e)
        else
          pure { up with email := e }
      else
        pure up
    | none => pure up : Except DomainError UserProfile)
  let up :=
    match preferences with
    | some p => { up with preferences := p }
    | none => up
  let up := up.update_timestamp now
  return (up, s.saveUserProfile up)

/-- `UserProfileService.can_create_workspace`: user must exist; true iff the
workspace count is below 50. -/
def can_create_workspace (s : State) (user_id : UUID) :
    Except DomainError Bool := do
  if !s.userProfileExists user_id then
    throw (.userProfileNotFound user_id)
  else
    return s.countWorkspaces user_id < 50

end UserProfileService

namespace WorkspaceService

/-- `WorkspaceService.create_workspace`: user must exist, the user's
workspace count must be below 50, then construct (validates) and save. -/
def create_workspace (s : State) (user_id : UUID) (name : Str)
    (workspace_type : Str) (description : Option Str)
    (settings : Option Dict) (newId : UUID) (now : Timestamp) :
    Except DomainError (Workspace × State) := do
  if !s.userProfileExists user_id then
    throw (.userProfileNotFound user_id)
  else if s.countWorkspaces user_id ≥ 50 then
    throw .workspaceLimitExceeded
  else do
    let workspace ←
      mkWorkspace newId name description user_id workspace_type
        (settings.getD []) now
    return (workspace, s.saveWorkspace workspace)

/-- `WorkspaceService.update_workspace`: load, check ownership, then assign
each provided field directly (no re-validation), bump `updated_at`, save. -/
def update_workspace (s : State) (workspace_id user_id : UUID)
    (name : Option Str) (description : Option Str) (settings : Option Dict)
    (shared_resources : Option (List (Str × List UUID))) (now : Timestamp) :
    Except DomainError (Workspace × State) := do
  let some workspace := s.findWorkspace workspace_id
    | throw (.workspaceNotFound workspace_id)
  if workspace.user_profile_id ≠ user_id then
    throw (.workspaceNotOwnedByUser workspace_id user_id)
  else
    let workspace :=
      match name with
      | some n => { workspace with name := n }
      | none => workspace
    let workspace :=
      match description with
      | some d => { workspace with description := some d }
      | none => workspace
    let workspace :=
      match settings with
      | some st => { workspace with settings := st }
      | none => workspace
    let workspace :=
      match shared_resources with
      | some sr => { workspace with shared_resources := sr }
      | none => workspace
    let workspace := workspace.update_timestamp now
    return (workspace, s.saveWorkspace workspace)

/-- `WorkspaceService.get_workspace`: read-only; the ownership check runs
only when a `user_id` is supplied. -/
def get_workspace (s : State) (workspace_id : UUID) (user_id : Option UUID) :
    Except DomainError Workspace := do
  let some workspace := s.findWorkspace workspace_id
    | throw (.workspaceNotFound workspace_id)
  match user_id with
  | some u =>
    if workspace.user_profile_id ≠ u then
      throw (.workspaceNotOwnedByUser workspace_id u)
    else
      return workspace
  | none => return workspace

/-- `WorkspaceService.delete_workspace`: load, check ownership, delete
(storage cascade removes the workspace's repos and vaults), commit. -/
def delete_workspace (s : State) (workspace_id user_id : UUID) :
    Except DomainError (Unit × State) := do
  let some workspace := s.findWorkspace workspace_id
    | throw (.workspaceNotFound workspace_id)
  if workspace.user_profile_id ≠ user_id then
    throw (.workspaceNotOwnedByUser workspace_id user_id)
  else
    return ((), s.deleteWorkspace workspace_id)

end WorkspaceService

namespace RepoService

/-- `RepoService.create_repo`: workspace must exist and be owned by
`user_id`; the workspace's repo count must be below 100; the name must not
already exist in the workspace; then construct (validates, with `path or ""`)
and save. -/
def create_repo (s : State) (workspace_id user_id : UUID) (name : Str)
    (path : Option Str) (remote_url : Option Str) (metadata : Option Dict)
    (newId : UUID) (now : Timestamp) : Except DomainError (Repo × State) := do
  let some workspace := s.findWorkspace workspace_id
    | throw (.workspaceNotFound workspace_id)
  if workspace.user_profile_id ≠ user_id then
    throw (.workspaceNotOwnedByUser workspace_id user_id)
  else if s.countRepos workspace_id ≥ 100 then
    throw .repoLimitExceeded
  else if s.repoNameExistsInWorkspace workspace_id name none then
    throw (.duplicateRepoName name workspace_id)
  else do
    let repo ←
      mkRepo newId name (path.getD []) workspace_id remote_url
        (metadata.getD []) now
    return (repo, s.saveRepo repo)

/-- `RepoService.update_repo`: load the repo, check ownership via its parent
workspace (`if not workspace or workspace.user_profile_id != user_id`), check
name uniqueness when a truthy, different name is supplied, then assign the
provided fields directly, bump `updated_at`, save. -/
def update_repo (s : State) (repo_id user_id : UUID) (name : Option Str)
    (path : Option Str) (remote_url : Option Str) (metadata : Option Dict)
    (now : Timestamp) : Except DomainError (Repo × State) := do
  let some repo := s.findRepo repo_id
    | throw (.repoNotFound repo_id)
  let ownerOk :=
    match s.findWorkspace repo.workspace_id with
    | some workspace => workspace.user_profile_id == user_id
    | none => false
  if !ownerOk then
    throw (.workspaceNotOwnedByUser repo.workspace_id user_id)
  else do
    let repo ← (do
      match name with
      | some n =>
        if !n.isEmpty && n != repo.name then
          if s.repoNameExistsInWorkspace repo.workspace_id n (some repo_id) then
            throw (.duplicateRepoName n repo.workspace_id)
          else
            pure { repo with name := n }
        else
          pure repo
      | none => pure repo : Except DomainError Repo)
    let repo :=
      match path with
      | some p => { repo with path := p }
      | none => repo
    let repo :=
      match remote_url with
      | some u => { repo with remote_url := some u }
      | none => repo
    let repo :=
      match metadata with
      | some m => { repo with metadata := m }
      | none => repo
    let repo := repo.update_timestamp now
    return (repo, s.saveRepo repo)

/-- `RepoService.get_repo`: read-only; the ownership check runs only when a
`user_id` is supplied. -/
def get_repo (s : State) (repo_id : UUID) (user_id : Option UUID) :
    Except DomainError Repo := do
  let some repo := s.findRepo repo_id
    | throw (.repoNotFound repo_id)
  match user_id with
  | some u =>
    let ownerOk :=
      match s.findWorkspace repo.workspace_id with
      | some workspace => workspace.user_profile_id == u
      | none => false
    if !ownerOk then
      throw (.workspaceNotOwnedByUser repo.workspace_id u)
    else
      return repo
  | none => return repo

/-- `RepoService.list_workspace_repos`: workspace must exist; ownership is
checked only when a `user_id` is supplied. -/
def list_workspace_repos (s : State) (workspace_id : UUID)
    (user_id : Option UUID) : Except DomainError (List Repo) := do
  let some workspace := s.findWorkspace workspace_id
    | throw (.workspaceNotFound workspace_id)
  match user_id with
  | some u =>
    if workspace.user_profile_id ≠ u then
      throw (.workspaceNotOwnedByUser workspace_id u)
    else
      return s.reposByWorkspace workspace_id
  | none => return s.reposByWorkspace workspace_id

/-- `RepoService.delete_repo`: load, check ownership via the parent
workspace, delete, commit. -/
def delete_repo (s : State) (repo_id user_id : UUID) :
    Except DomainError (Unit × State) := do
  let some repo := s.findRepo repo_id
    | throw (.repoNotFound repo_id)
  let ownerOk :=
    match s.findWorkspace repo.workspace_id with
    | some workspace => workspace.user_profile_id == user_id
    | none => false
  if !ownerOk then
    throw (.workspaceNotOwnedByUser repo.workspace_id user_id)
  else
    return ((), s.deleteRepo repo_id)

/-- `RepoService.sync_with_remote`: load, check ownership via the parent
workspace, `mark_synced`, save.  No remote interaction is modelled because
none happens in the code. -/
def sync_with_remote (s : State) (repo_id user_id : UUID) (now : Timestamp) :
    Except DomainError (Repo × State) := do
  let some repo := s.findRepo repo_id
    | throw (.repoNotFound repo_id)
  let ownerOk :=
    match s.findWorkspace repo.workspace_id with
    | some workspace => workspace.user_profile_id == user_id
    | none => false
  if !ownerOk then
    throw (.workspaceNotOwnedByUser repo.workspace_id user_id)
  else
    let repo := repo.mark_synced now
    return (repo, s.saveRepo repo)

end RepoService

namespace VaultService

/-- `VaultService.create_vault`: workspace must exist and be owned by
`user_id`; the workspace's vault count must be below 20; the name must not
already exist in the workspace; then construct (validates) and save. -/
def create_vault (s : State) (workspace_id user_id : UUID) (name path : Str)
    (metadata : Option Dict) (newId : UUID) (now : Timestamp) :
    Except DomainError (Vault × State) := do
  let some workspace := s.findWorkspace workspace_id
    | throw (.workspaceNotFound workspace_id)
  if workspace.user_profile_id ≠ user_id then
    throw (.workspaceNotOwnedByUser workspace_id user_id)
  else if s.countVaults workspace_id ≥ 20 then
    throw .vaultLimitExceeded
  else if s.vaultNameExistsInWorkspace workspace_id name none then
    throw (.duplicateVaultName name workspace_id)
  else do
    let vault ← mkVault newId name path workspace_id (metadata.getD []) now
    return (vault, s.saveVault vault)

/-- `VaultService.update_vault`: load, check ownership via the parent
workspace, check name uniqueness when a truthy, different name is supplied,
assign the provided fields directly, bump `updated_at`, save. -/
def update_vault (s : State) (vault_id user_id : UUID) (name : Option Str)
    (path : Option Str) (metadata : Option Dict) (now : Timestamp) :
    Except DomainError (Vault × State) := do
  let some vault := s.findVault vault_id
    | throw (.vaultNotFound vault_id)
  let ownerOk :=
    match s.findWorkspace vault.workspace_id with
    | some workspace => workspace.user_profile_id == user_id
    | none => false
  if !ownerOk then
    throw (.workspaceNotOwnedByUser vault.workspace_id user_id)
  else do
    let vault ← (do
      match name with
      | some n =>
        if !n.isEmpty && n != vault.name then
          if s.vaultNameExistsInWorkspace vault.workspace_id n (some vault_id) then
            throw (.duplicateVaultName n vault.workspace_id)
          else
            pure { vault with name := n }
        else
          pure vault
      | none => pure vault : Except DomainError Vault)
    let vault :=
      match path with
      | some p => { vault with path := p }
      | none => vault
    let vault :=
      match metadata with
      | some m => { vault with metadata := m }
      | none => vault
    let vault := vault.update_timestamp now
    return (vault, s.saveVault vault)

/-- `VaultService.get_vault`: read-only; the ownership check runs only when a
`user_id` is supplied. -/
def get_vault (s : State) (vault_id : UUID) (user_id : Option UUID) :
    Except DomainError Vault := do
  let some vault := s.findVault vault_id
    | throw (.vaultNotFound vault_id)
  match user_id with
  | some u =>
    let ownerOk :=
      match s.findWorkspace vault.workspace_id with
      | some workspace => workspace.user_profile_id == u
      | none => false
    if !ownerOk then
      throw (.workspaceNotOwnedByUser vault.workspace_id u)
    else
      return vault
  | none => return vault

/-- `VaultService.list_workspace_vaults`: workspace must exist; ownership is
checked only when a `user_id` is supplied. -/
def list_workspace_vaults (s : State) (workspace_id : UUID)
    (user_id : Option UUID) : Except DomainError (List Vault) := do
  let some workspace := s.findWorkspace workspace_id
    | throw (.workspaceNotFound workspace_id)
  match user_id with
  | some u =>
    if workspace.user_profile_id ≠ u then
      throw (.workspaceNotOwnedByUser workspace_id u)
    else
      return s.vaultsByWorkspace workspace_id
  | none => return s.vaultsByWorkspace workspace_id

/-- `VaultService.delete_vault`: load, check ownership via the parent
workspace, delete, commit. -/
def delete_vault (s : State) (vault_id user_id : UUID) :
    Except DomainError (Unit × State) := do
  let some vault := s.findVault vault_id
    | throw (.vaultNotFound vault_id)
  let ownerOk :=
    match s.findWorkspace vault.workspace_id with
    | some workspace => workspace.user_profile_id == user_id
    | none => false
  if !ownerOk then
    throw (.workspaceNotOwnedByUser vault.workspace_id user_id)
  else
    return ((), s.deleteVault vault_id)

/-- `VaultService.lock_vault`: load, check ownership via the parent
workspace, `lock`, save. -/
def lock_vault (s : State) (vault_id user_id : UUID) (now : Timestamp) :
    Except DomainError (Vault × State) := do
  let some vault := s.findVault vault_id
    | throw (.vaultNotFound vault_id)
  let ownerOk :=
    match s.findWorkspace vault.workspace_id with
    | some workspace => workspace.user_profile_id == user_id
    | none => false
  if !ownerOk then
    throw (.workspaceNotOwnedByUser vault.workspace_id user_id)
  else
    let vault := vault.lock now
    return (vault, s.saveVault vault)

/-- `VaultService.unlock_vault`: load, check ownership via the parent
workspace, `unlock`, save. -/
def unlock_vault (s : State) (vault_id user_id : UUID) (now : Timestamp) :
    Except DomainError (Vault × State) := do
  let some vault := s.findVault vault_id
    | throw (.vaultNotFound vault_id)
  let ownerOk :=
    match s.findWorkspace vault.workspace_id with
    | some workspace => workspace.user_profile_id == user_id
    | none => false
  if !ownerOk then
    throw (.workspaceNotOwnedByUser vault.workspace_id user_id)
  else
    let vault := vault.unlock now
    return (vault, s.saveVault vault)

end VaultService

/-! ## Concrete fixtures used to instantiate the theorems -/

/-- A valid user profile (id 1, `alice` / `a@b.c`). -/
def aliceUP : UserProfile :=
  { id := 1, username := "alice".toList, email := "a@b.c".toList,
    preferences := [("a".toList, 1)], created_at := 0, updated_at := 0 }

/-- A workspace (id 10) owned by user 1. -/
def labWS : Workspace :=
  { id := 10, name := "Lab".toList, description := none, user_profile_id := 1,
    workspace_type := "research".toList, settings := [], shared_resources := [],
    created_at := 1, updated_at := 1 }

/-- A second workspace (id 11) owned by user 1, with no repos. -/
def sideWS : Workspace :=
  { id := 11, name := "Side".toList, description := none, user_profile_id := 1,
    workspace_type := "general".toList, settings := [], shared_resources := [],
    created_at := 1, updated_at := 1 }

/-- A repo (id 20, name `proj1`) in workspace 10. -/
def projRepo : Repo :=
  { id := 20, name := "proj1".toList, path := "/p".toList, workspace_id := 10,
    remote_url := none, metadata := [], last_synced := none,
    created_at := 2, updated_at := 2 }

/-- A vault (id 30, unlocked) in workspace 10. -/
def demoVault : Vault :=
  { id := 30, name := "v".toList, path := "/v".toList, workspace_id := 10,
    metadata := [], is_locked := false, created_at := 4, updated_at := 4 }

/-- Store holding user 1 with workspaces 10 and 11, repo 20 and vault 30 in
workspace 10. -/
def demoState : State :=
  { user_profiles := [aliceUP], workspaces := [labWS, sideWS],
    repos := [projRepo], vaults := [demoVault] }

/-- The i-th of a batch of workspaces owned by user 1. -/
def batchWS (i : Nat) : Workspace :=
  { id := 100 + i, name := "w".toList, description := none, user_profile_id := 1,
    workspace_type := "general".toList, settings := [], shared_resources := [],
    created_at := 0, updated_at := 0 }

/-- Store where user 1 owns exactly 49 workspaces. -/
def state49 : State :=
  { user_profiles := [aliceUP], workspaces := (List.range 49).map batchWS,
    repos := [], vaults := [] }

/-- Store where user 1 owns exactly 50 workspaces. -/
def state50 : State :=
  { user_profiles := [aliceUP], workspaces := (List.range 50).map batchWS,
    repos := [], vaults := [] }

/-- The i-th of a batch of repos named `x` in workspace 10. -/
def batchRepo (i : Nat) : Repo :=
  { id := 100 + i, name := "x".toList, path := "/p".toList, workspace_id := 10,
    remote_url := none, metadata := [], last_synced := none,
    created_at := 0, updated_at := 0 }

/-- Store where workspace 10 (owned by user 1) already holds 100 repos, all
named `x`. -/
def fullRepoState : State :=
  { user_profiles := [aliceUP], workspaces := [labWS],
    repos := (List.range 100).map batchRepo, vaults := [] }

/-! ## Spec-side predicates

These two predicates restate the spec's wording of the username and email
format rules, to be compared against the validators translated from the
source. -/

/-- The username rules as the spec states them: at least 3 characters,
starts with a letter, contains only alphanumeric characters and
underscores. -/
def usernameRules (u : Str) : Prop :=
  3 ≤ u.length ∧ (∀ c ∈ u.take 1, c.isAlpha = true) ∧
  (∀ c ∈ u, c.isAlphanum = true ∨ c = '_')

instance (u : Str) : Decidable (usernameRules u) := by
  unfold usernameRules; infer_instance

/-- The email shape as the spec states it: `local@domain` with non-empty,
`@`-free local and domain parts and a dot in the domain. -/
def emailShape (e : Str) : Prop :=
  ∃ localPart domain, e = localPart ++ '@' :: domain ∧
    localPart ≠ [] ∧ domain ≠ [] ∧ '.' ∈ domain ∧
    '@' ∉ localPart ∧ '@' ∉ domain

/-! ## Helper lemmas -/

theorem except_pure_def (a : α) : (pure a : Except DomainError α) = .ok a := rfl

theorem except_throw_def (e : DomainError) :
    (throw e : Except DomainError α) = .error e := rfl

/-- Reading back the entity just saved by the upsert returns exactly it. -/
theorem find?_upsert (idOf : α → UUID) (l : List α) (a : α) :
    (upsert idOf l a).find? (fun x => idOf x == idOf a) = some a := by
  induction l with
  | nil => simp [upsert, List.find?]
  | cons x xs ih =>
    by_cases h : idOf x = idOf a
    · simp [upsert, h, List.find?]
    · simp [upsert, h, List.find?, ih]

/-- Round-trip for vaults: `save` then `get` by the saved id. -/
theorem State.findVault_saveVault (s : State) (v : Vault) :
    (s.saveVault v).findVault v.id = some v :=
  find?_upsert Vault.id s.vaults v

/-- Round-trip for repos: `save` then `get` by the saved id. -/
theorem State.findRepo_saveRepo (s : State) (r : Repo) :
    (s.saveRepo r).findRepo r.id = some r :=
  find?_upsert Repo.id s.repos r

/-- `find?` returning an entity means its key matched. -/
theorem State.findVault_id (s : State) (i : UUID) (v : Vault)
    (h : s.findVault i = some v) : v.id = i := by
  have := List.find?_some h
  simpa using this

theorem State.findRepo_id (s : State) (i : UUID) (r : Repo)
    (h : s.findRepo i = some r) : r.id = i := by
  have := List.find?_some h
  simpa using this

/-- Saving a vault changes no other table. -/
theorem State.saveVault_frame (s : State) (v : Vault) :
    (s.saveVault v).workspaces = s.workspaces ∧
    (s.saveVault v).user_profiles = s.user_profiles ∧
    (s.saveVault v).repos = s.repos := ⟨rfl, rfl, rfl⟩

/-- Python's split never yields an empty list of pieces. -/
theorem pySplit_ne_nil (sep : Char) (e : Str) : pySplit sep e ≠ [] := by
  induction e with
  | nil => simp [pySplit]
  | cons c rest ih =>
    simp only [pySplit]
    by_cases h : c = sep
    · simp [h]
    · simp only [h, if_false]
      cases hsplit : pySplit sep rest with
      | nil => simp
      | cons hh tt => simp

/-- A one-piece split means the separator does not occur. -/
theorem pySplit_eq_single (sep : Char) (e x : Str) :
    pySplit sep e = [x] ↔ x = e ∧ sep ∉ e := by
  induction e generalizing x with
  | nil => simp [pySplit, eq_comm]
  | cons c rest ih =>
    by_cases h : c = sep
    · subst h
      simp only [pySplit, if_pos rfl]
      constructor
      · intro hx
        exact absurd (List.cons_eq_cons.mp hx).2 (pySplit_ne_nil c rest)
      · rintro ⟨-, hmem⟩
        exact absurd (List.mem_cons_self c rest) hmem
    · simp only [pySplit, h, if_false]
      cases hsplit : pySplit sep rest with
      | nil => exact absurd hsplit (pySplit_ne_nil sep rest)
      | cons hh tt =>
        constructor
        · intro hx
          obtain ⟨h1, h2⟩ := List.cons_eq_cons.mp hx
          have : pySplit sep rest = [hh] := by rw [hsplit, h2]
          obtain ⟨h3, h4⟩ := (ih hh).mp this
          subst h3
          exact ⟨h1.symm, by simp [Ne.symm h, h4]⟩
        · rintro ⟨hx, hmem⟩
          subst hx
          have hrest : sep ∉ rest := fun hm => hmem (List.mem_cons_of_mem _ hm)
          have : pySplit sep rest = [rest] := (ih rest).mpr ⟨rfl, hrest⟩
          rw [hsplit] at this
          obtain ⟨h1, h2⟩ := List.cons_eq_cons.mp this
          simp [h1, h2]

/-- A two-piece split means the separator occurs exactly once, between the
two pieces. -/
theorem pySplit_eq_pair (sep : Char) (e l d : Str) :
    pySplit sep e = [l, d] ↔ e = l ++ sep :: d ∧ sep ∉ l ∧ sep ∉ d := by
  induction e generalizing l with
  | nil =>
    simp only [pySplit]
    constructor
    · intro hx
      exact absurd (List.cons_eq_cons.mp hx).2 (by simp)
    · rintro ⟨he, -, -⟩
      exact absurd he.symm (by simp)
  | cons c rest ih =>
    by_cases h : c = sep
    · subst h
      simp only [pySplit, if_pos rfl]
      constructor
      · intro hx
        obtain ⟨h1, h2⟩ := List.cons_eq_cons.mp hx
        obtain ⟨h3, h4⟩ := (pySplit_eq_single c rest d).mp h2
        subst h3
        exact ⟨by simp [h1.symm], by simp [h1.symm], h4⟩
      · rintro ⟨he, hl, hd⟩
        cases l with
        | nil =>
          simp only [List.nil_append, List.cons.injEq, true_and] at he
          have : pySplit c rest = [d] := (pySplit_eq_single c rest d).mpr ⟨he.symm, he ▸ hd⟩
          simp [this]
        | cons a l' =>
          simp only [List.cons_append, List.cons.injEq] at he
          exact absurd (he.1 ▸ List.mem_cons_self a l') (he.1 ▸ hl)
    · simp only [pySplit, h, if_false]
      cases hsplit : pySplit sep rest with
      | nil => exact absurd hsplit (pySplit_ne_nil sep rest)
      | cons hh tt =>
        constructor
        · intro hx
          obtain ⟨h1, h2⟩ := List.cons_eq_cons.mp hx
          have hpair : pySplit sep rest = [hh, d] := by rw [hsplit, h2]
          obtain ⟨h3, h4, h5⟩ := (ih hh).mp hpair
          refine ⟨?_, ?_, h5⟩
          · rw [← h1, h3]
            simp
          · rw [← h1]
            intro hmem
            rcases List.mem_cons.mp hmem with h6 | h6
            · exact h h6.symm
            · exact h4 h6
        · rintro ⟨he, hl, hd⟩
          cases l with
          | nil =>
            simp only [List.nil_append, List.cons.injEq] at he
            exact absurd he.1 h
          | cons a l' =>
            simp only [List.cons_append, List.cons.injEq] at he
            have hl' : sep ∉ l' := fun hm => hl (List.mem_cons_of_mem _ hm)
            have : pySplit sep rest = [l', d] := (ih l').mpr ⟨he.2, hl', hd⟩
            rw [hsplit] at this
            obtain ⟨h6, h7⟩ := List.cons_eq_cons.mp this
            rw [h6, h7, he.1]

/-- The translated `validate_username` agrees with the spec's username
rules. -/
theorem validate_username_iff (up : UserProfile) :
    up.validate_username = true ↔ usernameRules up.username := by
  unfold usernameRules
  cases hu : up.username with
  | nil =>
    have hv : up.validate_username = false := by
      unfold UserProfile.validate_username; rw [hu]
    simp [hv]
  | cons c rest =>
    have hv : up.validate_username =
        (if (c :: rest).length < 3 then false
         else if (!c.isAlpha) = true then false
         else (c :: rest).all fun ch => ch.isAlphanum || ch == '_') := by
      unfold UserProfile.validate_username; rw [hu]
    rw [hv]
    by_cases h3 : (c :: rest).length < 3
    · simp only [if_pos h3, Bool.false_eq_true, false_iff, not_and]
      intro hle
      exact absurd hle (Nat.not_le.mpr h3)
    · rw [if_neg h3]
      cases hA : c.isAlpha with
      | false =>
        simp only [hA, Bool.not_false, if_true, Bool.false_eq_true, false_iff, not_and]
        intro _ hhead
        have := hhead c (by simp)
        rw [hA] at this
        exact fun _ => Bool.false_ne_true this
      | true =>
        simp only [hA, Bool.not_true, Bool.false_eq_true, if_false, List.all_eq_true,
          Bool.or_eq_true, beq_iff_eq]
        constructor
        · intro hall
          exact ⟨Nat.le_of_not_lt h3, by simp [hA], hall⟩
        · rintro ⟨-, -, hall⟩
          exact hall

/-- The translated `validate_email` agrees with the spec's `local@domain`
shape. -/
theorem validate_email_iff (up : UserProfile) :
    up.validate_email = true ↔ emailShape up.email := by
  unfold emailShape
  constructor
  · intro hval
    unfold UserProfile.validate_email at hval
    by_cases hg : (up.email.isEmpty || !up.email.contains '@') = true
    · rw [if_pos hg] at hval
      exact absurd hval (by simp)
    · rw [if_neg hg] at hval
      cases hsp : pySplit '@' up.email with
      | nil =>
        rw [hsp] at hval
        exact absurd (show false = true from hval) (by simp)
      | cons l rest =>
        cases rest with
        | nil =>
          rw [hsp] at hval
          exact absurd (show false = true from hval) (by simp)
        | cons d rest2 =>
          cases rest2 with
          | nil =>
            rw [hsp] at hval
            have hval' :
                (if (l.isEmpty || d.isEmpty) = true then false
                 else d.contains '.') = true := hval
            by_cases hld : (l.isEmpty || d.isEmpty) = true
            · rw [if_pos hld] at hval'
              exact absurd hval' (by simp)
            · rw [if_neg hld] at hval'
              obtain ⟨he, hal, had⟩ := (pySplit_eq_pair '@' up.email l d).mp hsp
              simp only [Bool.or_eq_true, List.isEmpty_iff, not_or] at hld
              exact ⟨l, d, he, hld.1, hld.2, List.elem_iff.mp hval', hal, had⟩
          | cons x xs =>
            rw [hsp] at hval
            exact absurd (show false = true from hval) (by simp)
  · rintro ⟨l, d, he, hl, hd, hdot, hal, had⟩
    have hsp : pySplit '@' up.email = [l, d] :=
      (pySplit_eq_pair '@' up.email l d).mpr ⟨he, hal, had⟩
    have hmem : '@' ∈ up.email := by simp [he]
    have hne : up.email ≠ [] := by
      rw [he]; exact List.append_ne_nil_of_right_ne_nil l (by simp)
    unfold UserProfile.validate_email
    rw [if_neg (by simp [hne, hmem]), hsp]
    show (if (l.isEmpty || d.isEmpty) = true then false else d.contains '.') = true
    rw [if_neg (by simp [hl, hd])]
    exact List.elem_iff.mpr hdot

/-! ## Claim theorems -/

/-- C1: every workspace, repo, or vault operation that takes a `user_id`
(`update_workspace`, `delete_workspace`, `create_repo`, `update_repo`,
`delete_repo`, `sync_with_remote`, `create_vault`, `update_vault`,
`delete_vault`, `lock_vault`, `unlock_vault`, and the get/list variants when
a `user_id` is supplied) fails with `WorkspaceNotOwnedByUserError` when the
supplied `user_id` differs from the `user_profile_id` of the resource's
(parent) workspace.  The returned `Except.error` carries no successor state:
the unit of work rolls back and no write is performed. -/
theorem C1_ownership_enforced
    (s : State) (w : Workspace) (r : Repo) (v : Vault) (wid rid vid uid : UUID)
    (wname desc : Option Str) (settings : Option Dict)
    (shared : Option (List (Str × List UUID)))
    (rname : Str) (rpath rurl : Option Str) (rmeta : Option Dict)
    (vname vpath : Str) (vmeta : Option Dict)
    (newId : UUID) (now : Timestamp)
    (hw : s.findWorkspace wid = some w)
    (hown : w.user_profile_id ≠ uid)
    (hr : s.findRepo rid = some r) (hrw : r.workspace_id = wid)
    (hv : s.findVault vid = some v) (hvw : v.workspace_id = wid) :
    WorkspaceService.update_workspace s wid uid wname desc settings shared now =
      .error (.workspaceNotOwnedByUser wid uid) ∧
    WorkspaceService.delete_workspace s wid uid =
      .error (.workspaceNotOwnedByUser wid uid) ∧
    WorkspaceService.get_workspace s wid (some uid) =
      .error (.workspaceNotOwnedByUser wid uid) ∧
    RepoService.create_repo s wid uid rname rpath rurl rmeta newId now =
      .error (.workspaceNotOwnedByUser wid uid) ∧
    RepoService.update_repo s rid uid wname rpath rurl rmeta now =
      .error (.workspaceNotOwnedByUser wid uid) ∧
    RepoService.delete_repo s rid uid =
      .error (.workspaceNotOwnedByUser wid uid) ∧
    RepoService.sync_with_remote s rid uid now =
      .error (.workspaceNotOwnedByUser wid uid) ∧
    RepoService.get_repo s rid (some uid) =
      .error (.workspaceNotOwnedByUser wid uid) ∧
    RepoService.list_workspace_repos s wid (some uid) =
      .error (.workspaceNotOwnedByUser wid uid) ∧
    VaultService.create_vault s wid uid vname vpath vmeta newId now =
      .error (.workspaceNotOwnedByUser wid uid) ∧
    VaultService.update_vault s vid uid wname rpath vmeta now =
      .error (.workspaceNotOwnedByUser wid uid) ∧
    VaultService.delete_vault s vid uid =
      .error (.workspaceNotOwnedByUser wid uid) ∧
    VaultService.lock_vault s vid uid now =
      .error (.workspaceNotOwnedByUser wid uid) ∧
    VaultService.unlock_vault s vid uid now =
      .error (.workspaceNotOwnedByUser wid uid) ∧
    VaultService.get_vault s vid (some uid) =
      .error (.workspaceNotOwnedByUser wid uid) ∧
    VaultService.list_workspace_vaults s wid (some uid) =
      .error (.workspaceNotOwnedByUser wid uid) := by
  subst hrw
  refine ⟨?_, ?_, ?_, ?_, ?_, ?_, ?_, ?_, ?_, ?_, ?_, ?_, ?_, ?_, ?_, ?_⟩
  · simp [WorkspaceService.update_workspace, hw, hown, except_throw_def]
  · simp [WorkspaceService.delete_workspace, hw, hown, except_throw_def]
  · simp [WorkspaceService.get_workspace, hw, hown, except_throw_def]
  · simp [RepoService.create_repo, hw, hown, except_throw_def]
  · simp [RepoService.update_repo, hr, hw, hown, except_throw_def]
  · simp [RepoService.delete_repo, hr, hw, hown, except_throw_def]
  · simp [RepoService.sync_with_remote, hr, hw, hown, except_throw_def]
  · simp [RepoService.get_repo, hr, hw, hown, except_throw_def]
  · simp [RepoService.list_workspace_repos, hw, hown, except_throw_def]
  · simp [VaultService.create_vault, hw, hown, except_throw_def]
  · simp [VaultService.update_vault, hv, hvw, hw, hown, except_throw_def]
  · simp [VaultService.delete_vault, hv, hvw, hw, hown, except_throw_def]
  · simp [VaultService.lock_vault, hv, hvw, hw, hown, except_throw_def]
  · simp [VaultService.unlock_vault, hv, hvw, hw, hown, except_throw_def]
  · simp [VaultService.get_vault, hv, hvw, hw, hown, except_throw_def]
  · simp [VaultService.list_workspace_vaults, hw, hown, except_throw_def]

/-- C1 witness: user 2 does not own workspace 10 of `demoState`, and every
one of the sixteen operations rejects user 2 with the ownership error. -/
theorem C1_ownership_enforced_witness :
    WorkspaceService.update_workspace demoState 10 2 none none none none 7 =
      .error (.workspaceNotOwnedByUser 10 2) ∧
    WorkspaceService.delete_workspace demoState 10 2 =
      .error (.workspaceNotOwnedByUser 10 2) ∧
    WorkspaceService.get_workspace demoState 10 (some 2) =
      .error (.workspaceNotOwnedByUser 10 2) ∧
    RepoService.create_repo demoState 10 2 "r".toList none none none 99 7 =
      .error (.workspaceNotOwnedByUser 10 2) ∧
    RepoService.update_repo demoState 20 2 none none none none 7 =
      .error (.workspaceNotOwnedByUser 10 2) ∧
    RepoService.delete_repo demoState 20 2 =
      .error (.workspaceNotOwnedByUser 10 2) ∧
    RepoService.sync_with_remote demoState 20 2 7 =
      .error (.workspaceNotOwnedByUser 10 2) ∧
    RepoService.get_repo demoState 20 (some 2) =
      .error (.workspaceNotOwnedByUser 10 2) ∧
    RepoService.list_workspace_repos demoState 10 (some 2) =
      .error (.workspaceNotOwnedByUser 10 2) ∧
    VaultService.create_vault demoState 10 2 "nv".toList "/nv".toList none 99 7 =
      .error (.workspaceNotOwnedByUser 10 2) ∧
    VaultService.update_vault demoState 30 2 none none none 7 =
      .error (.workspaceNotOwnedByUser 10 2) ∧
    VaultService.delete_vault demoState 30 2 =
      .error (.workspaceNotOwnedByUser 10 2) ∧
    VaultService.lock_vault demoState 30 2 7 =
      .error (.workspaceNotOwnedByUser 10 2) ∧
    VaultService.unlock_vault demoState 30 2 7 =
      .error (.workspaceNotOwnedByUser 10 2) ∧
    VaultService.get_vault demoState 30 (some 2) =
      .error (.workspaceNotOwnedByUser 10 2) ∧
    VaultService.list_workspace_vaults demoState 10 (some 2) =
      .error (.workspaceNotOwnedByUser 10 2) :=
  C1_ownership_enforced demoState labWS projRepo demoVault 10 20 30 2
    none none none none "r".toList none none none "nv".toList "/nv".toList none
    99 7 rfl (by decide) rfl rfl rfl rfl

/-- C2: for an existing vault whose owning chain matches the caller,
`lock_vault` sets `is_locked` to true and `unlock_vault` sets it to false
(both touching nothing else but `updated_at`); the locked vault is what the
store then holds; locking an already-locked vault succeeds again as a no-op
on `is_locked`; and `update_vault` — the only other operation that mutates an
existing vault — never changes `is_locked`.  (`Vault.lock`/`unlock` and
`is_locked` are modelled from the spec; the dataclass under `src/` lacks
them while `VaultService` calls them.) -/
theorem C2_vault_lock_unlock
    (s : State) (vid uid : UUID) (v : Vault) (w : Workspace) (now now2 : Timestamp)
    (hv : s.findVault vid = some v)
    (hw : s.findWorkspace v.workspace_id = some w)
    (hown : w.user_profile_id = uid) :
    (VaultService.lock_vault s vid uid now =
       .ok ({ v with is_locked := true, updated_at := now },
            s.saveVault { v with is_locked := true, updated_at := now })) ∧
    (VaultService.unlock_vault s vid uid now =
       .ok ({ v with is_locked := false, updated_at := now },
            s.saveVault { v with is_locked := false, updated_at := now })) ∧
    ((s.saveVault { v with is_locked := true, updated_at := now }).findVault vid =
       some { v with is_locked := true, updated_at := now }) ∧
    (VaultService.lock_vault
        (s.saveVault { v with is_locked := true, updated_at := now }) vid uid now2 =
       .ok ({ v with is_locked := true, updated_at := now2 },
            (s.saveVault { v with is_locked := true, updated_at := now }).saveVault
              { v with is_locked := true, updated_at := now2 })) ∧
    (∀ nm pth md res,
       VaultService.update_vault s vid uid nm pth md now = .ok res →
       res.1.is_locked = v.is_locked) := by
  have hid : v.id = vid := State.findVault_id s vid v hv
  have hfind1 : (s.saveVault { v with is_locked := true, updated_at := now }).findVault vid =
      some { v with is_locked := true, updated_at := now } := by
    have := State.findVault_saveVault s { v with is_locked := true, updated_at := now }
    simpa [hid] using this
  have hwork1 : (s.saveVault { v with is_locked := true, updated_at := now }).findWorkspace
      v.workspace_id = some w := hw
  refine ⟨?_, ?_, hfind1, ?_, ?_⟩
  · simp [VaultService.lock_vault, hv, hw, hown, Vault.lock, except_pure_def]
  · simp [VaultService.unlock_vault, hv, hw, hown, Vault.unlock, except_pure_def]
  · simp [VaultService.lock_vault, hfind1, hwork1, hown, Vault.lock, except_pure_def]
  · intro nm pth md res h
    rcases nm with _ | n
    · simp only [VaultService.update_vault, hv, hw, hown, beq_self_eq_true, Bool.not_true,
        Bool.false_eq_true, if_false, except_pure_def, except_throw_def, bind, Except.bind,
        Except.ok.injEq] at h
      cases h
      rcases pth with _ | p <;> rcases md with _ | m <;> simp [Vault.update_timestamp]
    · simp only [VaultService.update_vault, hv, hw, hown, beq_self_eq_true, Bool.not_true,
        Bool.false_eq_true, if_false, except_pure_def, except_throw_def, bind,
        Except.bind] at h
      split at h
      · simp at h
      · rename_i a heq
        split at heq
        · split at heq
          · simp at heq
          · simp only [Except.ok.injEq] at heq
            subst heq
            simp only [Except.ok.injEq] at h
            cases h
            rcases pth with _ | p <;> rcases md with _ | m <;> simp [Vault.update_timestamp]
        · simp only [Except.ok.injEq] at heq
          subst heq
          simp only [Except.ok.injEq] at h
          cases h
          rcases pth with _ | p <;> rcases md with _ | m <;> simp [Vault.update_timestamp]

/-- C2 witness: locking and unlocking vault 30 of `demoState` as its owner
(user 1), locking it twice, and an `update_vault` that leaves `is_locked`
untouched. -/
theorem C2_vault_lock_unlock_witness :
    (VaultService.lock_vault demoState 30 1 7 =
       .ok ({ demoVault with is_locked := true, updated_at := 7 },
            demoState.saveVault { demoVault with is_locked := true, updated_at := 7 })) ∧
    (VaultService.unlock_vault demoState 30 1 7 =
       .ok ({ demoVault with is_locked := false, updated_at := 7 },
            demoState.saveVault { demoVault with is_locked := false, updated_at := 7 })) ∧
    ((demoState.saveVault { demoVault with is_locked := true, updated_at := 7 }).findVault 30 =
       some { demoVault with is_locked := true, updated_at := 7 }) ∧
    (VaultService.lock_vault
        (demoState.saveVault { demoVault with is_locked := true, updated_at := 7 }) 30 1 8 =
       .ok ({ demoVault with is_locked := true, updated_at := 8 },
            (demoState.saveVault { demoVault with is_locked := true, updated_at := 7 }).saveVault
              { demoVault with is_locked := true, updated_at := 8 })) ∧
    (({ demoVault with updated_at := 7 } : Vault).is_locked = demoVault.is_locked) := by
  have h := C2_vault_lock_unlock demoState 30 1 demoVault labWS 7 8 rfl rfl rfl
  exact ⟨h.1, h.2.1, h.2.2.1, h.2.2.2.1,
    h.2.2.2.2 none none none ({ demoVault with updated_at := 7 },
      demoState.saveVault { demoVault with updated_at := 7 }) rfl⟩

/-- C3: for an existing repo whose parent workspace is owned by the caller,
`sync_with_remote` returns and stores exactly the old repo with
`last_synced` set to the current time — every other field (name, path,
workspace_id, remote_url, metadata, created_at, updated_at) is untouched,
and no remote interaction exists anywhere in the operation.
(`Repo.mark_synced` and `last_synced` are modelled from the spec; the
dataclass under `src/` lacks them while `RepoService` calls them.) -/
theorem C3_sync_only_touches_last_synced
    (s : State) (rid uid : UUID) (r : Repo) (w : Workspace) (now : Timestamp)
    (hr : s.findRepo rid = some r)
    (hw : s.findWorkspace r.workspace_id = some w)
    (hown : w.user_profile_id = uid) :
    RepoService.sync_with_remote s rid uid now =
      .ok ({ r with last_synced := some now },
           s.saveRepo { r with last_synced := some now }) ∧
    (s.saveRepo { r with last_synced := some now }).findRepo rid =
      some { r with last_synced := some now } := by
  have hid : r.id = rid := State.findRepo_id s rid r hr
  constructor
  · simp [RepoService.sync_with_remote, hr, hw, hown, Repo.mark_synced, except_pure_def]
  · have := State.findRepo_saveRepo s { r with last_synced := some now }
    simpa [hid] using this

/-- C3 witness: syncing repo 20 of `demoState` as its owner (user 1) at time
99 stores the repo unchanged except for `last_synced = 99`. -/
theorem C3_sync_only_touches_last_synced_witness :
    RepoService.sync_with_remote demoState 20 1 99 =
      .ok ({ projRepo with last_synced := some 99 },
           demoState.saveRepo { projRepo with last_synced := some 99 }) ∧
    (demoState.saveRepo { projRepo with last_synced := some 99 }).findRepo 20 =
      some { projRepo with last_synced := some 99 } :=
  C3_sync_only_touches_last_synced demoState 20 1 projRepo labWS 99 rfl rfl rfl

/-- C4: for an existing user owning `countWorkspaces` workspaces,
`create_workspace` with valid inputs succeeds while the count is below 50
(so creating the 50th at a count of 49 succeeds), and fails with
`WorkspaceLimitExceeded` — performing no write — once the count is 50 or
more; 50 is the literal constant in the code. -/
theorem C4_workspace_limit
    (s : State) (uid newId : UUID) (name ty : Str) (desc : Option Str)
    (settings : Option Dict) (now : Timestamp) (wNew : Workspace)
    (hu : s.userProfileExists uid = true) :
    (s.countWorkspaces uid < 50 →
      mkWorkspace newId name desc uid ty (settings.getD []) now = .ok wNew →
      WorkspaceService.create_workspace s uid name ty desc settings newId now =
        .ok (wNew, s.saveWorkspace wNew)) ∧
    (50 ≤ s.countWorkspaces uid →
      WorkspaceService.create_workspace s uid name ty desc settings newId now =
        .error .workspaceLimitExceeded) := by
  constructor
  · intro h50 hmk
    simp [WorkspaceService.create_workspace, hu, hmk, Nat.not_le.mpr h50,
      except_pure_def, except_throw_def, bind, Except.bind]
  · intro h50
    simp [WorkspaceService.create_workspace, hu, h50, except_throw_def]

/-- C4 witness: user 1 owns 49 workspaces in `state49` and creating the 50th
succeeds; user 1 owns 50 workspaces in `state50` and creating the 51st fails
with the limit error. -/
theorem C4_workspace_limit_witness :
    WorkspaceService.create_workspace state49 1 "Lab".toList "general".toList
        none none 999 5 =
      .ok ({ id := 999, name := "Lab".toList, description := none,
             user_profile_id := 1, workspace_type := "general".toList,
             settings := [], shared_resources := [], created_at := 5,
             updated_at := 5 },
           state49.saveWorkspace
             { id := 999, name := "Lab".toList, description := none,
               user_profile_id := 1, workspace_type := "general".toList,
               settings := [], shared_resources := [], created_at := 5,
               updated_at := 5 }) ∧
    WorkspaceService.create_workspace state50 1 "Lab".toList "general".toList
        none none 999 5 =
      .error .workspaceLimitExceeded :=
  ⟨(C4_workspace_limit state49 1 999 "Lab".toList "general".toList none none 5
      _ rfl).1 (by decide) rfl,
   (C4_workspace_limit state50 1 999 "Lab".toList "general".toList none none 5
      { id := 999, name := "Lab".toList, description := none,
        user_profile_id := 1, workspace_type := "general".toList,
        settings := [], shared_resources := [], created_at := 5,
        updated_at := 5 } rfl).2 (by decide)⟩

/-- C5 counterexample to the claim as stated: in `fullRepoState`, workspace
10 (owned by user 1) already holds 100 repos, one of them named `x`; per the
claim `create_repo` with name `x` should fail with `DuplicateRepoNameError`,
but the limit check runs first and the call fails with `RepoLimitExceeded`
instead. -/
theorem C5_counterexample :
    fullRepoState.repoNameExistsInWorkspace 10 "x".toList none = true ∧
    RepoService.create_repo fullRepoState 10 1 "x".toList (some "/p".toList)
        none none 999 5 = .error .repoLimitExceeded ∧
    DomainError.repoLimitExceeded ≠
      DomainError.duplicateRepoName "x".toList 10 := by
  refine ⟨by decide, ?_, by decide⟩
  rfl

/-- C5 (amended): for a workspace owned by the caller whose repo count is
below 100, `create_repo` fails with `DuplicateRepoNameError` when a repo of
the same name already exists in that workspace (when the count is at 100 the
`RepoLimitExceeded` check takes precedence), and succeeds — persisting the
repo — when no repo of that name exists in that workspace (the same name in
a different workspace is irrelevant) and the inputs are valid. -/
theorem C5_duplicate_repo_name
    (s : State) (wid uid newId : UUID) (w : Workspace) (name : Str)
    (path rurl : Option Str) (meta : Option Dict) (now : Timestamp)
    (hw : s.findWorkspace wid = some w) (hown : w.user_profile_id = uid)
    (hcount : s.countRepos wid < 100) :
    (s.repoNameExistsInWorkspace wid name none = true →
      RepoService.create_repo s wid uid name path rurl meta newId now =
        .error (.duplicateRepoName name wid)) ∧
    (∀ rNew, s.repoNameExistsInWorkspace wid name none = false →
      mkRepo newId name (path.getD []) wid rurl (meta.getD []) now = .ok rNew →
      RepoService.create_repo s wid uid name path rurl meta newId now =
        .ok (rNew, s.saveRepo rNew)) := by
  constructor
  · intro hdup
    simp [RepoService.create_repo, hw, hown, hdup, Nat.not_le.mpr hcount,
      except_throw_def]
  · intro rNew hdup hmk
    simp [RepoService.create_repo, hw, hown, hdup, hmk, Nat.not_le.mpr hcount,
      except_pure_def, except_throw_def, bind, Except.bind]

/-- C5 witness: in `demoState`, workspace 10 already holds `proj1` below the
limit, so creating another `proj1` there fails with the duplicate error;
workspace 11 does not hold a `proj1`, so creating `proj1` there succeeds
even though the name exists in workspace 10. -/
theorem C5_duplicate_repo_name_witness :
    RepoService.create_repo demoState 10 1 "proj1".toList (some "/q".toList)
        none none 21 3 = .error (.duplicateRepoName "proj1".toList 10) ∧
    RepoService.create_repo demoState 11 1 "proj1".toList (some "/q".toList)
        none none 21 3 =
      .ok ({ id := 21, name := "proj1".toList, path := "/q".toList,
             workspace_id := 11, remote_url := none, metadata := [],
             last_synced := none, created_at := 3, updated_at := 3 },
           demoState.saveRepo
             { id := 21, name := "proj1".toList, path := "/q".toList,
               workspace_id := 11, remote_url := none, metadata := [],
               last_synced := none, created_at := 3, updated_at := 3 }) :=
  ⟨(C5_duplicate_repo_name demoState 10 1 21 labWS "proj1".toList
      (some "/q".toList) none none 3 rfl rfl (by decide)).1 (by decide),
   (C5_duplicate_repo_name demoState 11 1 21 sideWS "proj1".toList
      (some "/q".toList) none none 3 rfl rfl (by decide)).2
     { id := 21, name := "proj1".toList, path := "/q".toList,
       workspace_id := 11, remote_url := none, metadata := [],
       last_synced := none, created_at := 3, updated_at := 3 }
     (by decide) rfl⟩

/-- C6: for a valid `(username, email)` pair, `create_user_profile` raises
`UsernameAlreadyExistsError` whenever the username is taken — with no
condition on the email, so the username check runs first — raises
`EmailAlreadyExistsError` when only the email is taken, and otherwise
persists the profile and returns the saved entity. -/
theorem C6_create_user_profile
    (s : State) (username email : Str) (prefs : Option Dict)
    (newId : UUID) (now : Timestamp) (up : UserProfile)
    (hmk : mkUserProfile newId username email (prefs.getD []) now = .ok up) :
    (s.usernameExists username none = true →
      UserProfileService.create_user_profile s username email prefs newId now =
        .error (.usernameAlreadyExists username)) ∧
    (s.usernameExists username none = false →
     s.emailExists email none = true →
      UserProfileService.create_user_profile s username email prefs newId now =
        .error (.emailAlreadyExists email)) ∧
    (s.usernameExists username none = false →
     s.emailExists email none = false →
      UserProfileService.create_user_profile s username email prefs newId now =
        .ok (up, s.saveUserProfile up)) := by
  refine ⟨?_, ?_, ?_⟩
  · intro hname
    simp [UserProfileService.create_user_profile, hmk, hname, bind, Except.bind,
      except_throw_def]
  · intro hname hemail
    simp [UserProfileService.create_user_profile, hmk, hname, hemail, bind,
      Except.bind, except_throw_def]
  · intro hname hemail
    simp [UserProfileService.create_user_profile, hmk, hname, hemail, bind,
      Except.bind, except_pure_def]

/-- C6 witness: `demoState` holds `alice`/`a@b.c`; creating a profile with
the taken username `alice` and the taken email `a@b.c` fails on the username
(precedence), `bob`/`a@b.c` fails on the email, and `bob`/`b@b.c` is
persisted and returned. -/
theorem C6_create_user_profile_witness :
    UserProfileService.create_user_profile demoState "alice".toList
        "a@b.c".toList none 2 9 =
      .error (.usernameAlreadyExists "alice".toList) ∧
    UserProfileService.create_user_profile demoState "bob".toList
        "a@b.c".toList none 2 9 =
      .error (.emailAlreadyExists "a@b.c".toList) ∧
    UserProfileService.create_user_profile demoState "bob".toList
        "b@b.c".toList none 2 9 =
      .ok ({ id := 2, username := "bob".toList, email := "b@b.c".toList,
             preferences := [], created_at := 9, updated_at := 9 },
           demoState.saveUserProfile
             { id := 2, username := "bob".toList, email := "b@b.c".toList,
               preferences := [], created_at := 9, updated_at := 9 }) :=
  ⟨(C6_create_user_profile demoState "alice".toList "a@b.c".toList none 2 9
      { id := 2, username := "alice".toList, email := "a@b.c".toList,
        preferences := [], created_at := 9, updated_at := 9 } rfl).1 (by decide),
   (C6_create_user_profile demoState "bob".toList "a@b.c".toList none 2 9
      { id := 2, username := "bob".toList, email := "a@b.c".toList,
        preferences := [], created_at := 9, updated_at := 9 } rfl).2.1
     (by decide) (by decide),
   (C6_create_user_profile demoState "bob".toList "b@b.c".toList none 2 9
      { id := 2, username := "bob".toList, email := "b@b.c".toList,
        preferences := [], created_at := 9, updated_at := 9 } rfl).2.2
     (by decide) (by decide)⟩

/-- C7: `update_user_profile` called with only a preferences map leaves the
stored username and email at their prior values and replaces the preferences
wholesale with the supplied map, while the entity-level `update_preferences`
merges (`dict.update`) instead. -/
theorem C7_preferences_replaced_not_merged
    (s : State) (uid : UUID) (up : UserProfile) (prefs : Dict) (now : Timestamp)
    (h : s.findUserProfile uid = some up) :
    (UserProfileService.update_user_profile s uid none none (some prefs) now =
      .ok ({ up with preferences := prefs, updated_at := now },
           s.saveUserProfile { up with preferences := prefs, updated_at := now })) ∧
    (∀ newPrefs now2,
      up.update_preferences newPrefs now2 =
        { up with preferences := dictUpdate up.preferences newPrefs,
                  updated_at := now2 }) := by
  constructor
  · simp [UserProfileService.update_user_profile, h, bind, Except.bind,
      except_pure_def, UserProfile.update_timestamp]
  · intro newPrefs now2
    rfl

/-- C7 witness: user 1 of `demoState` has preferences `{a: 1}`; the service
update with `{b: 2}` stores exactly `{b: 2}` with username/email unchanged,
while the entity-level merge of `{b: 2}` yields `{a: 1, b: 2}` — a different
map. -/
theorem C7_preferences_replaced_not_merged_witness :
    (UserProfileService.update_user_profile demoState 1 none none
        (some [("b".toList, 2)]) 8 =
      .ok ({ aliceUP with preferences := [("b".toList, 2)], updated_at := 8 },
           demoState.saveUserProfile
             { aliceUP with preferences := [("b".toList, 2)], updated_at := 8 })) ∧
    (aliceUP.update_preferences [("b".toList, 2)] 8 =
      { aliceUP with
          preferences := dictUpdate aliceUP.preferences [("b".toList, 2)],
          updated_at := 8 }) ∧
    dictUpdate aliceUP.preferences [("b".toList, 2)] =
      [("a".toList, 1), ("b".toList, 2)] ∧
    ([("b".toList, 2)] : Dict) ≠ [("a".toList, 1), ("b".toList, 2)] := by
  have h := C7_preferences_replaced_not_merged demoState 1 aliceUP
    [("b".toList, 2)] 8 rfl
  exact ⟨h.1, h.2 [("b".toList, 2)] 8, by decide, by decide⟩

/-- C8: `UserProfile` construction succeeds exactly when the username has at
least 3 characters, starts with a letter and contains only alphanumerics and
underscores, and the email has the `local@domain` shape with a dot in the
domain and non-empty parts; on a violation it fails with the validation
error naming the offending field (username checked first), and — being an
`Except` — never yields a half-valid object. -/
theorem C8_user_profile_validation (u e : Str) (id : UUID) (prefs : Dict)
    (now : Timestamp) :
    ((∃ up, mkUserProfile id u e prefs now = .ok up) ↔
       usernameRules u ∧ emailShape e) ∧
    (¬ usernameRules u →
      mkUserProfile id u e prefs now = .error (.invalidUsername u)) ∧
    (usernameRules u → ¬ emailShape e →
      mkUserProfile id u e prefs now = .error (.invalidEmail e)) ∧
    (usernameRules u → emailShape e →
      mkUserProfile id u e prefs now =
        .ok { id := id, username := u, email := e, preferences := prefs,
              created_at := now, updated_at := now }) := by
  have hU := validate_username_iff
    { id := id, username := u, email := e, preferences := prefs,
      created_at := now, updated_at := now }
  have hE := validate_email_iff
    { id := id, username := u, email := e, preferences := prefs,
      created_at := now, updated_at := now }
  have husername : ¬ usernameRules u →
      mkUserProfile id u e prefs now = .error (.invalidUsername u) := by
    intro hn
    have hub : UserProfile.validate_username
        { id := id, username := u, email := e, preferences := prefs,
          created_at := now, updated_at := now } = false :=
      Bool.eq_false_iff.mpr fun habs => hn (hU.mp habs)
    simp [mkUserProfile, hub]
  have hemail : usernameRules u → ¬ emailShape e →
      mkUserProfile id u e prefs now = .error (.invalidEmail e) := by
    intro hy hn
    have hub : UserProfile.validate_username
        { id := id, username := u, email := e, preferences := prefs,
          created_at := now, updated_at := now } = true := hU.mpr hy
    have heb : UserProfile.validate_email
        { id := id, username := u, email := e, preferences := prefs,
          created_at := now, updated_at := now } = false :=
      Bool.eq_false_iff.mpr fun habs => hn (hE.mp habs)
    simp [mkUserProfile, hub, heb]
  have hok : usernameRules u → emailShape e →
      mkUserProfile id u e prefs now =
        .ok { id := id, username := u, email := e, preferences := prefs,
              created_at := now, updated_at := now } := by
    intro hy hye
    have hub : UserProfile.validate_username
        { id := id, username := u, email := e, preferences := prefs,
          created_at := now, updated_at := now } = true := hU.mpr hy
    have heb : UserProfile.validate_email
        { id := id, username := u, email := e, preferences := prefs,
          created_at := now, updated_at := now } = true := hE.mpr hye
    simp [mkUserProfile, hub, heb]
  refine ⟨⟨?_, ?_⟩, husername, hemail, hok⟩
  · rintro ⟨up, hup⟩
    by_cases hy : usernameRules u
    · by_cases hye : emailShape e
      · exact ⟨hy, hye⟩
      · rw [hemail hy hye] at hup
        cases hup
    · rw [husername hy] at hup
      cases hup
  · rintro ⟨hy, hye⟩
    exact ⟨_, hok hy hye⟩

/-- C8 witness: `alice`/`a@b.c` satisfies both rule sets and is constructed
exactly; `1bad` violates the username rules and fails with the username
error; `alice`/`nodot@nowhere` violates the email shape and fails with the
email error. -/
theorem C8_user_profile_validation_witness :
    (usernameRules "alice".toList ∧ emailShape "a@b.c".toList) ∧
    mkUserProfile 7 "alice".toList "a@b.c".toList [] 3 =
      .ok { id := 7, username := "alice".toList, email := "a@b.c".toList,
            preferences := [], created_at := 3, updated_at := 3 } ∧
    mkUserProfile 7 "1bad".toList "a@b.c".toList [] 3 =
      .error (.invalidUsername "1bad".toList) ∧
    mkUserProfile 7 "alice".toList "nodot@nowhere".toList [] 3 =
      .error (.invalidEmail "nodot@nowhere".toList) := by
  have hshape : emailShape "a@b.c".toList :=
    ⟨"a".toList, "b.c".toList, by decide, by decide, by decide, by decide,
     by decide, by decide⟩
  have hrules : usernameRules "alice".toList := by decide
  have hnoshape : ¬ emailShape "nodot@nowhere".toList := by
    rintro ⟨l, d, he, -, -, hdot, hal, had⟩
    have : '.' ∈ "nodot@nowhere".toList := by
      rw [he]
      exact List.mem_append_right l (List.mem_cons_of_mem _ hdot)
    exact absurd this (by decide)
  refine ⟨⟨hrules, hshape⟩, ?_, ?_, ?_⟩
  · exact (C8_user_profile_validation "alice".toList "a@b.c".toList 7 [] 3).2.2.2
      hrules hshape
  · exact (C8_user_profile_validation "1bad".toList "a@b.c".toList 7 [] 3).2.1
      (by decide)
  · exact (C8_user_profile_validation "alice".toList "nodot@nowhere".toList 7 [] 3).2.2.1
      (by decide) hnoshape

/-- C9: the entity-level mutation methods (`Workspace.rename`,
`Repo.update_path`, `Repo.update_remote_url`, `UserProfile.update_email`)
re-validate the proposed value; on failure they raise the validation error
with the mutated field restored to its prior value and `updated_at`
unchanged — the returned entity equals the original — and on success the
field holds the new value and `updated_at` is bumped. -/
theorem C9_mutation_rollback
    (w : Workspace) (r : Repo) (upr : UserProfile)
    (n p e : Str) (url : Option Str) (now : Timestamp) :
    (({ w with name := n } : Workspace).validate_name = false →
       w.rename n now = (w, some (.invalidWorkspaceName n))) ∧
    (({ w with name := n } : Workspace).validate_name = true →
       w.rename n now = ({ w with name := n, updated_at := now }, none)) ∧
    (({ r with path := p } : Repo).validate_path = false →
       r.update_path p now = (r, some (.invalidRepoPath p))) ∧
    (({ r with path := p } : Repo).validate_path = true →
       r.update_path p now = ({ r with path := p, updated_at := now }, none)) ∧
    ((pyTruthy url && !({ r with remote_url := url } : Repo).validate_remote_url) = true →
       r.update_remote_url url now = (r, some (.invalidRemoteUrl url))) ∧
    ((pyTruthy url && !({ r with remote_url := url } : Repo).validate_remote_url) = false →
       r.update_remote_url url now =
         ({ r with remote_url := url, updated_at := now }, none)) ∧
    (({ upr with email := e } : UserProfile).validate_email = false →
       upr.update_email e now = (upr, some (.invalidEmail e))) ∧
    (({ upr with email := e } : UserProfile).validate_email = true →
       upr.update_email e now = ({ upr with email := e, updated_at := now }, none)) := by
  refine ⟨?_, ?_, ?_, ?_, ?_, ?_, ?_, ?_⟩ <;> intro hc
  · simp [Workspace.rename, hc]
  · simp [Workspace.rename, hc]
  · simp [Repo.update_path, hc]
  · simp [Repo.update_path, hc]
  · simp [Repo.update_remote_url, hc]
  · simp [Repo.update_remote_url, hc]
  · simp [UserProfile.update_email, hc]
  · simp [UserProfile.update_email, hc]

/-- C9 witness: each of the four methods on a concrete entity, once with an
invalid value (entity returned unchanged alongside the error) and once with
a valid one (field updated, `updated_at` bumped). -/
theorem C9_mutation_rollback_witness :
    labWS.rename [] 7 = (labWS, some (.invalidWorkspaceName [])) ∧
    labWS.rename "Lab2".toList 7 =
      ({ labWS with name := "Lab2".toList, updated_at := 7 }, none) ∧
    projRepo.update_path " ".toList 7 =
      (projRepo, some (.invalidRepoPath " ".toList)) ∧
    projRepo.update_path "/q".toList 7 =
      ({ projRepo with path := "/q".toList, updated_at := 7 }, none) ∧
    projRepo.update_remote_url (some "/abs".toList) 7 =
      (projRepo, some (.invalidRemoteUrl (some "/abs".toList))) ∧
    projRepo.update_remote_url (some "git@h:x".toList) 7 =
      ({ projRepo with remote_url := some "git@h:x".toList, updated_at := 7 }, none) ∧
    aliceUP.update_email "bad".toList 7 =
      (aliceUP, some (.invalidEmail "bad".toList)) ∧
    aliceUP.update_email "x@y.z".toList 7 =
      ({ aliceUP with email := "x@y.z".toList, updated_at := 7 }, none) :=
  ⟨(C9_mutation_rollback labWS projRepo aliceUP [] " ".toList "bad".toList
      (some "/abs".toList) 7).1 (by decide),
   (C9_mutation_rollback labWS projRepo aliceUP "Lab2".toList "/q".toList
      "x@y.z".toList (some "git@h:x".toList) 7).2.1 (by decide),
   (C9_mutation_rollback labWS projRepo aliceUP [] " ".toList "bad".toList
      (some "/abs".toList) 7).2.2.1 (by decide),
   (C9_mutation_rollback labWS projRepo aliceUP "Lab2".toList "/q".toList
      "x@y.z".toList (some "git@h:x".toList) 7).2.2.2.1 (by decide),
   (C9_mutation_rollback labWS projRepo aliceUP [] " ".toList "bad".toList
      (some "/abs".toList) 7).2.2.2.2.1 (by decide),
   (C9_mutation_rollback labWS projRepo aliceUP "Lab2".toList "/q".toList
      "x@y.z".toList (some "git@h:x".toList) 7).2.2.2.2.2.1 (by decide),
   (C9_mutation_rollback labWS projRepo aliceUP [] " ".toList "bad".toList
      (some "/abs".toList) 7).2.2.2.2.2.2.1 (by decide),
   (C9_mutation_rollback labWS projRepo aliceUP "Lab2".toList "/q".toList
      "x@y.z".toList (some "git@h:x".toList) 7).2.2.2.2.2.2.2 (by decide)⟩

/-- C10 (implicit): the service-level update operations assign the provided
name/path values directly to the entity without re-running entity
validation, so for any owner-matched existing workspace/repo/vault and any
provided value — including values entity construction would reject — the
update succeeds and stores the value. -/
theorem C10_update_skips_validation
    (s : State) (wid rid vid uid : UUID) (w : Workspace) (r : Repo) (v : Vault)
    (n p : Str) (now : Timestamp)
    (hw : s.findWorkspace wid = some w) (hwown : w.user_profile_id = uid)
    (hr : s.findRepo rid = some r) (hrw : r.workspace_id = wid)
    (hv : s.findVault vid = some v) (hvw : v.workspace_id = wid) :
    (WorkspaceService.update_workspace s wid uid (some n) none none none now =
      .ok ({ w with name := n, updated_at := now },
           s.saveWorkspace { w with name := n, updated_at := now })) ∧
    (n ≠ [] → n ≠ r.name → s.repoNameExistsInWorkspace wid n (some rid) = false →
      RepoService.update_repo s rid uid (some n) none none none now =
        .ok ({ r with name := n, updated_at := now },
             s.saveRepo { r with name := n, updated_at := now })) ∧
    (RepoService.update_repo s rid uid none (some p) none none now =
      .ok ({ r with path := p, updated_at := now },
           s.saveRepo { r with path := p, updated_at := now })) ∧
    (n ≠ [] → n ≠ v.name → s.vaultNameExistsInWorkspace wid n (some vid) = false →
      VaultService.update_vault s vid uid (some n) none none now =
        .ok ({ v with name := n, updated_at := now },
             s.saveVault { v with name := n, updated_at := now })) ∧
    (VaultService.update_vault s vid uid none (some p) none now =
      .ok ({ v with path := p, updated_at := now },
           s.saveVault { v with path := p, updated_at := now })) := by
  subst hrw
  refine ⟨?_, ?_, ?_, ?_, ?_⟩
  · simp [WorkspaceService.update_workspace, hw, hwown, Workspace.update_timestamp,
      except_pure_def]
  · intro hne hname hdup
    simp [RepoService.update_repo, hr, hw, hwown, hdup, hne, hname,
      Repo.update_timestamp, bind, Except.bind, except_pure_def, List.isEmpty_iff]
  · simp [RepoService.update_repo, hr, hw, hwown, Repo.update_timestamp,
      bind, Except.bind, except_pure_def]
  · intro hne hname hdup
    simp [VaultService.update_vault, hv, hvw, hw, hwown, hdup, hne, hname,
      Vault.update_timestamp, bind, Except.bind, except_pure_def, List.isEmpty_iff]
  · simp [VaultService.update_vault, hv, hvw, hw, hwown, Vault.update_timestamp,
      bind, Except.bind, except_pure_def]

set_option maxRecDepth 4000 in
/-- C10 witness: a 300-character name is rejected by construction of all
three entities, yet `update_workspace`, `update_repo` and `update_vault`
store it without error; `update_repo` likewise stores an empty path that
construction would reject. -/
theorem C10_update_skips_validation_witness :
    mkWorkspace 999 (List.replicate 300 'a') none 1 "general".toList [] 7 =
      .error (.invalidWorkspaceName (List.replicate 300 'a')) ∧
    mkRepo 999 (List.replicate 300 'a') "/p".toList 10 none [] 7 =
      .error (.invalidRepoName (List.replicate 300 'a')) ∧
    mkVault 999 (List.replicate 300 'a') "/v".toList 10 [] 7 =
      .error (.invalidVaultName (List.replicate 300 'a')) ∧
    mkRepo 999 "ok".toList [] 10 none [] 7 = .error (.invalidRepoPath []) ∧
    WorkspaceService.update_workspace demoState 10 1
        (some (List.replicate 300 'a')) none none none 7 =
      .ok ({ labWS with name := List.replicate 300 'a', updated_at := 7 },
           demoState.saveWorkspace
             { labWS with name := List.replicate 300 'a', updated_at := 7 }) ∧
    RepoService.update_repo demoState 20 1
        (some (List.replicate 300 'a')) none none none 7 =
      .ok ({ projRepo with name := List.replicate 300 'a', updated_at := 7 },
           demoState.saveRepo
             { projRepo with name := List.replicate 300 'a', updated_at := 7 }) ∧
    RepoService.update_repo demoState 20 1 none (some []) none none 7 =
      .ok ({ projRepo with path := [], updated_at := 7 },
           demoState.saveRepo { projRepo with path := [], updated_at := 7 }) ∧
    VaultService.update_vault demoState 30 1
        (some (List.replicate 300 'a')) none none 7 =
      .ok ({ demoVault with name := List.replicate 300 'a', updated_at := 7 },
           demoState.saveVault
             { demoVault with name := List.replicate 300 'a', updated_at := 7 }) ∧
    VaultService.update_vault demoState 30 1 none (some []) none 7 =
      .ok ({ demoVault with path := [], updated_at := 7 },
           demoState.saveVault { demoVault with path := [], updated_at := 7 }) := by
  have h := C10_update_skips_validation demoState 10 20 30 1 labWS projRepo demoVault
    (List.replicate 300 'a') [] 7 rfl rfl rfl rfl rfl rfl
  exact ⟨rfl, rfl, rfl, rfl, h.1,
    h.2.1 (by decide) (by decide) (by decide), h.2.2.1,
    h.2.2.2.1 (by decide) (by decide) (by decide), h.2.2.2.2⟩

end Symphony
